import Mathlib

/-!
Verification development for the Grailed scraping utility
(`create-task.py`).  The Python source is shallowly embedded: pure
string/filename manipulation becomes Lean functions on `String`, the
pandas `DataFrame` column-assignment discipline becomes an explicit
table state, raising Python/Selenium exceptions becomes `Except`, and
the browser environment (which element waits succeed, what the parsed
page contains, which files exist) is passed explicitly as data.
-/

namespace CreateTask

/-! ## Python error taxonomy

The exception kinds that the script can raise or catch:
the three Selenium exceptions it imports, the failure mode of driving
an already-terminated session, and the two plain Python errors the
extraction pipeline can produce (`TypeError` from `str + None`,
`ValueError` from a mismatched pandas column assignment). -/

inductive PyErr where
  | noSuchElement
  | staleElementReference
  | timeout
  | invalidSession
  | typeError
  | valueError
deriving DecidableEq, Repr

/-! ## Filename handling (`generate_unique_filename` and the writers) -/

/-- Index of the last occurrence of a character, accumulator form. -/
def lastIdxOfAux (c : Char) : List Char → Nat → Option Nat
  | [], _ => none
  | x :: xs, i =>
    match lastIdxOfAux c xs (i + 1) with
    | some j => some j
    | none => if x == c then some i else none

/-- Index of the last occurrence of a character in a character list. -/
def lastIdxOf (c : Char) (cs : List Char) : Option Nat :=
  lastIdxOfAux c cs 0

/-- Models `os.path.splitext` for plain filenames (no path separator):
split at the last dot, unless every character before that dot is itself
a dot (so ".bashrc" keeps no extension), in which case the extension is
empty. -/
def splitext (p : String) : String × String :=
  match lastIdxOf '.' p.data with
  | none => (p, "")
  | some i =>
    if (p.data.take i).any (fun c => c != '.') then
      (String.mk (p.data.take i), String.mk (p.data.drop i))
    else (p, "")

/-- Models `re.match(r"^(.*)_?(\d+)$", base)` as the source applies it.
With Python's leftmost-greedy backtracking, `(.*)` keeps the longest
prefix whose remainder still matches `_?(\d+)$`; the shortest viable
remainder is the single final character when it is a digit (the `_?`
then matches the empty string, because a longer remainder would have to
end in the digits of `(\d+)` anyway and `(.*)` prefers to swallow
them).  Hence the regex matches exactly when the final character is a
digit, group 1 is everything before it (including any underscore) and
group 2 is that one digit.  Returns `(group 1, int(group 2))`. -/
def reMatchTrailingNum (base : String) : Option (String × Nat) :=
  match base.data.getLast? with
  | none => none
  | some c => if c.isDigit then some (String.mk base.data.dropLast, c.toNat - 48) else none

/-- Models `os.path.exists` against the ambient filesystem, represented
as the list of existing path names. -/
def pathExists (fs : List String) (p : String) : Bool :=
  fs.contains p

/-- Embeds `generate_unique_filename`.  The Python function recurses
while the freshly built candidate name exists; since each recursive
call requires the candidate to be one of the finitely many existing
files and candidates strictly grow, the recursion terminates, which the
embedding makes structural with a fuel argument (`fs.length + 1` fuel
is always enough; `none` only signals exhausted fuel). -/
def generate_unique_filename (fs : List String) : Nat → String → Option String
  | 0, _ => none
  | fuel + 1, filename =>
    let be := splitext filename
    let new_filename :=
      match reMatchTrailingNum be.1 with
      | some pc => pc.1 ++ "_" ++ toString (pc.2 + 1) ++ be.2
      | none => be.1 ++ "_1" ++ be.2
    if pathExists fs new_filename then generate_unique_filename fs fuel new_filename
    else some new_filename

/-- Path written by `save_as_json`: the source opens the given name
with ".json" appended (an f-string). -/
def save_as_json_path (filename : String) : String := filename ++ ".json"

/-- Path written by `save_as_csv`. -/
def save_as_csv_path (filename : String) : String := filename ++ ".csv"

/-- Path written by `save_as_yaml`. -/
def save_as_yaml_path (filename : String) : String := filename ++ ".yaml"

/-! ## Parsed page and the six field extractors

The CSS engine itself (soupsieve) is not embedded: a parsed page is
represented by the selector to matched-node-list map it induces, with
nodes listed in document order, which is exactly the interface the
source consumes through `select(selector, soup)`. -/

/-- One matched element: its rendered text and its attributes. -/
structure Node where
  text : String
  attrs : List (String × String)
deriving DecidableEq, Repr

/-- Models `bs4.Tag.get(key)`: the attribute's value, or `None` when
the attribute is absent. -/
def Node.get (n : Node) (key : String) : Option String :=
  (n.attrs.find? (fun p => p.1 == key)).map (fun p => p.2)

/-- A parsed page snapshot: which nodes (in document order) each CSS
selector matches. -/
structure Soup where
  nodesFor : String → List Node

/-- Models `soupsieve.select(sel, soup)`. -/
def select (sel : String) (soup : Soup) : List Node :=
  soup.nodesFor sel

/-- First chunk of Python's `s.split(sep)` for a non-empty separator:
the characters before the first occurrence of `sep` (all of `s` when
`sep` does not occur).  The source only ever uses index `[0]` of the
split. -/
def splitFirstAux (sep : List Char) : List Char → List Char
  | [] => []
  | c :: rest => if sep.isPrefixOf (c :: rest) then [] else c :: splitFirstAux sep rest

/-- Models `s.split(sep)[0]` on strings (for the fixed non-empty
separator the source uses). -/
def pySplitHead (sep s : String) : String :=
  String.mk (splitFirstAux sep.data s.data)

/-- Embeds `extract_item_post_times`:
`[time.text.split("\xa0ago")[0] for the matched age nodes]`. -/
def extract_item_post_times (soup : Soup) : List String :=
  (select ".ListingAge-module__dateAgo___xmM8y" soup).map
    (fun time => pySplitHead "\u00A0ago" time.text)

/-- Embeds `extract_item_titles`. -/
def extract_item_titles (soup : Soup) : List String :=
  (select ".ListingMetadata-module__title___Rsj55" soup).map (fun title => title.text)

/-- Embeds `extract_item_designers`. -/
def extract_item_designers (soup : Soup) : List String :=
  (select "div.ListingMetadata-module__designerAndSize___lbEdw > p:first-child" soup).map
    (fun designer => designer.text)

/-- Embeds `extract_item_sizes`. -/
def extract_item_sizes (soup : Soup) : List String :=
  (select ".ListingMetadata-module__size___e9naE" soup).map (fun size => size.text)

/-- Embeds `extract_item_prices`. -/
def extract_item_prices (soup : Soup) : List String :=
  (select "[data-testid=\"Current\"]" soup).map (fun price => price.text)

/-- Evaluation of `list(map(lambda l: "https://grailed.com" + l.get("href"), nodes))`:
nodes are consumed left to right and the first node whose `href` is
absent makes the addition `str + None` raise `TypeError` at that point,
before any list is produced. -/
def mapListingLink : List Node → Except PyErr (List String)
  | [] => .ok []
  | n :: rest =>
    match n.get "href" with
    | none => .error PyErr.typeError
    | some h =>
      match mapListingLink rest with
      | .error e => .error e
      | .ok tail => .ok (("https://grailed.com" ++ h) :: tail)

/-- Embeds `extract_item_listing_link`. -/
def extract_item_listing_link (soup : Soup) : Except PyErr (List String) :=
  mapListingLink (select "a.listing-item-link" soup)

/-! ## The pandas table and `extract_data_to_dataframe`

Only the behaviour the source exercises is modelled: constructing an
empty frame with named columns and assigning a plain Python list to a
column.  Cells are `Option String`, `none` standing for NaN. -/

/-- A pandas DataFrame: the length of its row index and its named
columns. -/
structure DataFrame where
  indexLen : Nat
  cols : List (String × List (Option String))
deriving DecidableEq, Repr

/-- Models `pd.DataFrame(columns=keys)`: zero rows, one empty column
per key. -/
def DataFrame.mkEmpty (columns : List String) : DataFrame :=
  ⟨0, columns.map (fun k => (k, []))⟩

/-- Pads a column with NaN up to the given length (pandas reindexing of
the existing columns when an empty index acquires rows). -/
def padCol (n : Nat) (c : List (Option String)) : List (Option String) :=
  c ++ List.replicate (n - c.length) none

/-- Replaces the named column if present, else appends it. -/
def dfSetCol (cols : List (String × List (Option String))) (name : String)
    (v : List (Option String)) : List (String × List (Option String)) :=
  if cols.any (fun p => p.1 == name) then
    cols.map (fun p => if p.1 == name then (p.1, v) else p)
  else cols ++ [(name, v)]

/-- Models `df[name] = vals` for a plain list `vals`: when the index is
empty and the list non-empty, pandas builds the index from the list and
reindexes (NaN-pads) the existing columns; otherwise the list length
must equal the index length, and a mismatch raises
`ValueError("Length of values does not match length of index")`. -/
def DataFrame.setItem (df : DataFrame) (name : String) (vals : List String) :
    Except PyErr DataFrame :=
  if df.indexLen == 0 && vals.length != 0 then
    .ok ⟨vals.length, dfSetCol (df.cols.map (fun p => (p.1, padCol vals.length p.2)))
      name (vals.map some)⟩
  else if vals.length == df.indexLen then
    .ok ⟨df.indexLen, dfSetCol df.cols name (vals.map some)⟩
  else .error PyErr.valueError

/-- The loop body of `extract_data_to_dataframe`: for each
(column, extractor-result) pair in order, evaluate the extractor (its
exception propagates) and assign the list to the column. -/
def edtdGo : List (String × Except PyErr (List String)) → DataFrame → Except PyErr DataFrame
  | [], df => .ok df
  | (name, v) :: rest, df =>
    match v with
    | .error e => .error e
    | .ok vals =>
      match df.setItem name vals with
      | .error e => .error e
      | .ok df' => edtdGo rest df'

/-- Embeds `extract_data_to_dataframe(soup, data_extraction_functions)`:
start from `pd.DataFrame(columns=keys)` and assign each column in dict
order. -/
def extract_data_to_dataframe (fns : List (String × Except PyErr (List String))) :
    Except PyErr DataFrame :=
  edtdGo fns (DataFrame.mkEmpty (fns.map (fun p => p.1)))

/-- The `data_extraction_functions` dict built in `main`, in insertion
order; each value is what calling the corresponding extractor on the
page snapshot yields (the five plain extractors cannot raise, the
listing-link one can). -/
def data_extraction_functions (soup : Soup) : List (String × Except PyErr (List String)) :=
  [("Posted Time", .ok (extract_item_post_times soup)),
   ("Title", .ok (extract_item_titles soup)),
   ("Designer", .ok (extract_item_designers soup)),
   ("Size", .ok (extract_item_sizes soup)),
   ("Price", .ok (extract_item_prices soup)),
   ("Listing Link", extract_item_listing_link soup)]

/-! ## Command-line arguments and output-format selection -/

/-- The argparse namespace: the search query option, the three format
flags, the output-name option and the headless flag.  Unset string
options are `None`. -/
structure Args where
  search : Option String
  json : Bool
  csv : Bool
  yaml : Bool
  output : Option String
  headless : Bool
deriving DecidableEq, Repr

/-- Observable effect of `save_output_to_file`: which file (if any) was
written, or that the frame was printed to the console. -/
inductive OutputEffect where
  | wroteJson : String → OutputEffect
  | wroteCsv : String → OutputEffect
  | wroteYaml : String → OutputEffect
  | printedTable : OutputEffect
deriving DecidableEq, Repr

/-- Whether the effect wrote a file at all. -/
def OutputEffect.writesFile : OutputEffect → Bool
  | .printedTable => false
  | _ => true

/-- Embeds `save_output_to_file(df, output_filename, args)`:
`if args.json: ... elif args.csv: ... elif args.yaml: ... else: print(df)`.
The frame argument does not influence the choice. -/
def save_output_to_file (_df : DataFrame) (output_filename : String) (args : Args) :
    OutputEffect :=
  if args.json then .wroteJson (save_as_json_path output_filename)
  else if args.csv then .wroteCsv (save_as_csv_path output_filename)
  else if args.yaml then .wroteYaml (save_as_yaml_path output_filename)
  else .printedTable

/-! ## Session navigation and the shape of `main`

The browser is an external collaborator; an `Env` records how each of
its waits would turn out on this run, together with the page snapshot,
the filesystem and the interactive input.  Each navigation function
becomes a function of the `Env` returning `Except PyErr`; the number of
`driver.quit()` invocations a function performs is returned alongside,
since claim coverage includes session teardown. -/

/-- The three exception classes caught around the search-bar
interaction (`except (NoSuchElementException,
StaleElementReferenceException, TimeoutException)`). -/
inductive SearchBarFailure where
  | noSuchElement
  | staleElementReference
  | timeout
deriving DecidableEq, Repr

/-- The corresponding raised exception. -/
def SearchBarFailure.toPyErr : SearchBarFailure → PyErr
  | .noSuchElement => PyErr.noSuchElement
  | .staleElementReference => PyErr.staleElementReference
  | .timeout => PyErr.timeout

/-- One run's environment: how the browser waits resolve, the parsed
page, the filesystem, the parsed arguments and what the interactive
prompt would return.  The pointer/keyboard gestures the source performs
unconditionally are modelled as non-raising. -/
structure Env where
  cookieButtonAppears : Bool
  searchBarErr : Option SearchBarFailure
  popupAppears : Bool
  overlayPersists : Bool
  soup : Soup
  args : Args
  fs : List String
  promptResult : String

/-- Embeds `accept_cookies`: wait for the consent button and
double-click it; a `TimeoutException` from the wait is caught and
logged, so the function always returns normally. -/
def accept_cookies (env : Env) : Except PyErr Unit :=
  match (if env.cookieButtonAppears then Except.ok () else Except.error PyErr.timeout :
      Except PyErr Unit) with
  | .error PyErr.timeout => .ok ()
  | r => r

/-- Embeds `dismiss_login_popup`: wait for the modal (timeout when it
never appears), perform the offset-click and escape gestures, then wait
for the overlay to vanish (timeout when it persists); any
`TimeoutException` raised inside the body is caught and logged. -/
def dismiss_login_popup (env : Env) : Except PyErr Unit :=
  let body : Except PyErr Unit :=
    if env.popupAppears then
      if env.overlayPersists then .error PyErr.timeout else .ok ()
    else .error PyErr.timeout
  match body with
  | .error PyErr.timeout => .ok ()
  | r => r

/-- The bounded retry loop around `dismiss_login_popup`
(`for _ in range(3): try: dismiss_login_popup(driver, 2); break
except TimeoutException: pass`).  The first component counts how many
times the loop body ran; the argument is the remaining range. -/
def popupRetryGo (env : Env) : Nat → Nat × Except PyErr Unit
  | 0 => (0, .ok ())
  | n + 1 =>
    match dismiss_login_popup env with
    | .ok _ => (1, .ok ())
    | .error PyErr.timeout =>
      let r := popupRetryGo env n
      (r.1 + 1, r.2)
    | .error e => (1, .error e)

/-- The protected body of `get_to_search_bar_to_search`:
`accept_cookies`, then the clickable-wait on the search input (the step
that can raise any of the three caught exception classes), then the
popup retry loop. -/
def getToSearchBarBody (env : Env) : Except PyErr Unit :=
  match accept_cookies env with
  | .error e => .error e
  | .ok _ =>
    match env.searchBarErr with
    | some e => .error e.toPyErr
    | none => (popupRetryGo env 3).2

/-- Embeds `get_to_search_bar_to_search`: the three Selenium exception
classes are caught, logged, and answered with `driver.quit()`; the
function then returns normally.  Result: (number of quit invocations,
outcome). -/
def get_to_search_bar_to_search (env : Env) : Nat × Except PyErr Unit :=
  match getToSearchBarBody env with
  | .ok _ => (0, .ok ())
  | .error PyErr.noSuchElement => (1, .ok ())
  | .error PyErr.staleElementReference => (1, .ok ())
  | .error PyErr.timeout => (1, .ok ())
  | .error e => (0, .error e)

/-- Embeds `search_for_query(driver, search_query)`: a truthy (non-empty)
query is typed as given; an empty query is replaced by one read from
the interactive prompt (`get_search_query`) and that is typed instead.
Returns the string handed to `type_search`. -/
def search_for_query (search_query : String) (promptResult : String) : String :=
  if search_query != "" then search_query else promptResult

/-- Embeds `main`.  The try block runs navigation, search, page wait,
extraction and output; `driver.quit()` in the `finally` clause adds one
teardown invocation on every path.  Driving a session that was already
quit (which `get_to_search_bar_to_search` does after a search-bar
failure) makes the next browser command raise; the page-load wait
swallows its timeout.  Result: (total quit invocations, outcome). -/
def main_run (env : Env) : Nat × Except PyErr Unit :=
  match get_to_search_bar_to_search env with
  | (navQuits, Except.error e) => (navQuits + 1, .error e)
  | (navQuits, Except.ok _) =>
    let sq :=
      match env.args.search with
      | some s => if s != "" then s else env.promptResult
      | none => env.promptResult
    let typed : Except PyErr String :=
      if navQuits != 0 then .error PyErr.invalidSession
      else .ok (search_for_query sq env.promptResult)
    match typed with
    | .error e => (navQuits + 1, .error e)
    | .ok _ =>
      match extract_data_to_dataframe (data_extraction_functions env.soup) with
      | .error e => (navQuits + 1, .error e)
      | .ok df =>
        let base :=
          match env.args.output with
          | some o => if o != "" then o else sq.replace " " "_"
          | none => sq.replace " " "_"
        match generate_unique_filename env.fs (env.fs.length + 1) base with
        | none => (navQuits + 1, .error PyErr.valueError)
        | some ofn =>
          let _eff := save_output_to_file df ofn env.args
          (navQuits + 1, .ok ())

/-! ## Predicates and concrete data used by the theorems -/

/-- Within `t ++ sep`, no occurrence of `sep` starts inside `t` (so the
first occurrence of `sep` is the final one).  This is the precondition
under which taking the first split chunk strips exactly the trailing
marker. -/
def sepOnlyAtEnd (sep : List Char) : List Char → Bool
  | [] => true
  | c :: rest => !(sep.isPrefixOf ((c :: rest) ++ sep)) && sepOnlyAtEnd sep rest

/-- The string contains no dot (in particular, no filename extension). -/
def dotFree (s : String) : Bool :=
  s.data.all (fun c => c != '.')

/-- Page snapshot whose posted-time selector matches two nodes but
whose title selector matches only one (an item missing its title), the
situation the ragged-column claim is about. -/
def soupC4 : Soup :=
  ⟨fun sel =>
    if sel == ".ListingAge-module__dateAgo___xmM8y" then
      [⟨"1 day\u00A0ago", []⟩, ⟨"2 days\u00A0ago", []⟩]
    else if sel == ".ListingMetadata-module__title___Rsj55" then [⟨"Wool Coat", []⟩]
    else if sel == "a.listing-item-link" then [⟨"", [("href", "/listings/9-c")]⟩]
    else []⟩

/-- Page snapshot with two listing-link anchors carrying relative hrefs. -/
def soupC6 : Soup :=
  ⟨fun sel =>
    if sel == "a.listing-item-link" then
      [⟨"Item A", [("href", "/listings/1-a")]⟩, ⟨"Item B", [("href", "/listings/2-b")]⟩]
    else []⟩

/-- Page snapshot with one posted-time node. -/
def soupC7 : Soup :=
  ⟨fun sel =>
    if sel == ".ListingAge-module__dateAgo___xmM8y" then [⟨"3 days\u00A0ago", []⟩]
    else []⟩

/-- Page snapshot whose second listing-link anchor has no href
attribute. -/
def soupC8 : Soup :=
  ⟨fun sel =>
    if sel == "a.listing-item-link" then
      [⟨"Item A", [("href", "/listings/1-a")]⟩, ⟨"Item B", []⟩]
    else []⟩

/-- A run on which the search-bar wait times out. -/
def envC2 : Env :=
  { cookieButtonAppears := true
    searchBarErr := some SearchBarFailure.timeout
    popupAppears := false
    overlayPersists := false
    soup := ⟨fun _ => []⟩
    args := ⟨some "jacket", false, false, false, none, false⟩
    fs := []
    promptResult := "jacket" }

/-! ## Theorems -/

/-- C1: evaluating `generate_unique_filename` at the spec's own test
case.  When no same-named file exists, the function indeed returns
`report_1.json`; but when `report_1.json` exists (and nothing else),
the greedy regex keeps the underscore inside group 1 and the function
returns `report__2.json` — with a double underscore — and not the
`report_2.json` that the spec prescribes. -/
theorem c1_filename_collision :
    generate_unique_filename [] 1 "report.json" = some "report_1.json"
    ∧ generate_unique_filename ["report_1.json"] 2 "report.json" = some "report__2.json"
    ∧ generate_unique_filename ["report_1.json"] 2 "report.json" ≠ some "report_2.json" := by
  refine ⟨by decide, by decide, by decide⟩

/-- C3 counterexample: an empty caller-supplied query is not passed
through to the search field; `search_for_query` replaces it with the
interactively prompted query ("jacket" here), so the typed string is
not the empty string. -/
theorem c3_counterexample :
    search_for_query "" "jacket" = "jacket" ∧ search_for_query "" "jacket" ≠ "" := by
  refine ⟨rfl, by decide⟩

/-- C3 (amended): `if search_query:` tests Python truthiness, so an
empty caller-supplied query is replaced by one read from the
interactive prompt, while any non-empty query is passed through
unchanged to `type_search`. -/
theorem c3_empty_query_prompts (q promptResult : String) :
    (q = "" → search_for_query q promptResult = promptResult)
    ∧ (q ≠ "" → search_for_query q promptResult = q) := by
  constructor
  · intro h
    subst h
    rfl
  · intro h
    simp [search_for_query, h]

/-- C3 witness: the amended theorem at concrete inputs. -/
theorem c3_witness :
    search_for_query "" "vintage tee" = "vintage tee"
    ∧ search_for_query "shoes" "vintage tee" = "shoes" :=
  ⟨(c3_empty_query_prompts "" "vintage tee").1 rfl,
   (c3_empty_query_prompts "shoes" "vintage tee").2 (by decide)⟩

/-- C5: `save_output_to_file` selects the output format by the fixed
if-elif priority JSON, CSV, YAML (in particular JSON wins whenever its
flag is set, regardless of the other flags), and with no format flag
set it prints the frame and writes no file. -/
theorem c5_format_priority (df : DataFrame) (fn : String) (a : Args) :
    (save_output_to_file df fn a = OutputEffect.wroteJson (fn ++ ".json") ↔ a.json = true)
    ∧ (save_output_to_file df fn a = OutputEffect.wroteCsv (fn ++ ".csv")
        ↔ (a.json = false ∧ a.csv = true))
    ∧ (save_output_to_file df fn a = OutputEffect.wroteYaml (fn ++ ".yaml")
        ↔ (a.json = false ∧ a.csv = false ∧ a.yaml = true))
    ∧ (save_output_to_file df fn a = OutputEffect.printedTable
        ↔ (a.json = false ∧ a.csv = false ∧ a.yaml = false))
    ∧ ((save_output_to_file df fn a).writesFile = false
        ↔ (a.json = false ∧ a.csv = false ∧ a.yaml = false)) := by
  obtain ⟨s, j, c, y, o, hl⟩ := a
  cases j <;> cases c <;> cases y <;>
    simp [save_output_to_file, save_as_json_path, save_as_csv_path, save_as_yaml_path,
      OutputEffect.writesFile]

theorem mapListingLink_all_some (ns : List Node) (hrefs : List String)
    (h : ns.map (fun n => n.get "href") = hrefs.map some) :
    mapListingLink ns = Except.ok (hrefs.map (fun s => "https://grailed.com" ++ s)) := by
  induction ns generalizing hrefs with
  | nil =>
    cases hrefs with
    | nil => rfl
    | cons a l => simp at h
  | cons n ns ih =>
    cases hrefs with
    | nil => simp at h
    | cons a l =>
      simp only [List.map_cons, List.cons.injEq] at h
      obtain ⟨h1, h2⟩ := h
      simp [mapListingLink, h1, ih l h2]

/-- C6: whenever every anchor matched by the listing-link selector has
an href, `extract_item_listing_link` returns, for every matched node
and in document order, that href prefixed with the fixed site origin
"https://grailed.com". -/
theorem c6_listing_link_absolute (soup : Soup) (hrefs : List String)
    (h : (select "a.listing-item-link" soup).map (fun n => n.get "href") = hrefs.map some) :
    extract_item_listing_link soup
      = Except.ok (hrefs.map (fun s => "https://grailed.com" ++ s)) :=
  mapListingLink_all_some _ hrefs h

/-- C6 witness: the theorem applied to a page with two relative hrefs. -/
theorem c6_witness :
    extract_item_listing_link soupC6
      = Except.ok ["https://grailed.com/listings/1-a", "https://grailed.com/listings/2-b"] := by
  have h := c6_listing_link_absolute soupC6 ["/listings/1-a", "/listings/2-b"] (by decide)
  rw [h]
  exact congrArg Except.ok (by decide)

theorem mapListingLink_missing_href (ns : List Node)
    (h : ∃ n ∈ ns, n.get "href" = none) :
    mapListingLink ns = Except.error PyErr.typeError := by
  induction ns with
  | nil => simp at h
  | cons n ns ih =>
    obtain ⟨m, hm, hget⟩ := h
    rcases List.mem_cons.mp hm with hm | hm
    · subst hm
      simp [mapListingLink, hget]
    · cases hhead : n.get "href" with
      | none => simp [mapListingLink, hhead]
      | some v => simp [mapListingLink, hhead, ih ⟨m, hm, hget⟩]

/-- C8: when some node matched by the listing-link selector lacks an
href attribute, building the listing-link list raises `TypeError`
(`str + None`) instead of skipping the record or substituting a
placeholder: the extractor returns no list at all. -/
theorem c8_missing_href_raises (soup : Soup)
    (h : ∃ n ∈ select "a.listing-item-link" soup, n.get "href" = none) :
    extract_item_listing_link soup = Except.error PyErr.typeError :=
  mapListingLink_missing_href _ h

/-- C8 witness: the theorem applied to a page whose second anchor has
no href. -/
theorem c8_witness : extract_item_listing_link soupC8 = Except.error PyErr.typeError :=
  c8_missing_href_raises soupC8 (by decide)

theorem isPrefixOf_self (cs : List Char) : cs.isPrefixOf cs = true := by
  induction cs with
  | nil => rfl
  | cons c cs ih => simp [List.isPrefixOf, ih]

theorem splitFirstAux_strips (sep : List Char) (hsep : sep ≠ []) :
    ∀ t : List Char, sepOnlyAtEnd sep t = true → splitFirstAux sep (t ++ sep) = t := by
  intro t
  induction t with
  | nil =>
    intro _
    cases sep with
    | nil => exact absurd rfl hsep
    | cons c cs =>
      simp only [List.nil_append, splitFirstAux]
      rw [if_pos (isPrefixOf_self _)]
  | cons c t ih =>
    intro h
    simp only [sepOnlyAtEnd, Bool.and_eq_true, Bool.not_eq_eq_eq_not, Bool.not_true] at h
    obtain ⟨h1, h2⟩ := h
    rw [List.cons_append, splitFirstAux, if_neg (by rw [List.cons_append] at h1; simp only [h1]; exact Bool.false_ne_true)]
    rw [ih h2]

theorem pySplitHead_strips (sep t : String) (hsep : sep.data ≠ [])
    (h : sepOnlyAtEnd sep.data t.data = true) :
    pySplitHead sep (t ++ sep) = t := by
  unfold pySplitHead
  rw [String.data_append, splitFirstAux_strips sep.data hsep t.data h]

theorem mapPostTimes_strips (ns : List Node) (ts : List String)
    (h : ns.map Node.text = ts.map (fun t => t ++ "\u00A0ago"))
    (h2 : ∀ t ∈ ts, sepOnlyAtEnd "\u00A0ago".data t.data = true) :
    ns.map (fun time => pySplitHead "\u00A0ago" time.text) = ts := by
  induction ns generalizing ts with
  | nil =>
    cases ts with
    | nil => rfl
    | cons a l => simp at h
  | cons n ns ih =>
    cases ts with
    | nil => simp at h
    | cons a l =>
      simp only [List.map_cons, List.cons.injEq] at h
      obtain ⟨h1, hrest⟩ := h
      simp only [List.map_cons, List.cons.injEq]
      refine ⟨?_, ?_⟩
      · rw [h1]
        exact pySplitHead_strips "\u00A0ago" a (by decide) (h2 a (by simp))
      · exact ih l hrest (fun t ht => h2 t (by simp [ht]))

/-- C7: for every time node matched by the posted-time selector whose
text ends with the fixed marker "\u00A0ago" (and contains it only
there), `extract_item_post_times` returns the text with that trailing
marker stripped, in document order. -/
theorem c7_post_time_strips_marker (soup : Soup) (ts : List String)
    (h : (select ".ListingAge-module__dateAgo___xmM8y" soup).map Node.text
      = ts.map (fun t => t ++ "\u00A0ago"))
    (h2 : ∀ t ∈ ts, sepOnlyAtEnd "\u00A0ago".data t.data = true) :
    extract_item_post_times soup = ts :=
  mapPostTimes_strips (select ".ListingAge-module__dateAgo___xmM8y" soup) ts h h2

/-- C7 witness: the theorem applied to a page with one posted-time
node reading "3 days\u00A0ago". -/
theorem c7_witness : extract_item_post_times soupC7 = ["3 days"] :=
  c7_post_time_strips_marker soupC7 ["3 days"] (by decide) (by decide)

/-- C4 counterexample: on a page where the posted-time selector
matches two nodes but the title selector only one, the frame assembly
does not return a ragged table: the second column assignment raises
`ValueError`, exactly as pandas does for a mismatched plain-list
assignment. -/
theorem c4_counterexample :
    (extract_item_post_times soupC4).length ≠ (extract_item_titles soupC4).length
    ∧ extract_data_to_dataframe (data_extraction_functions soupC4)
        = Except.error PyErr.valueError := by
  refine ⟨by decide, rfl⟩

/-- C4 (amended): when the six selectors match differing numbers of
nodes — already when the posted-time column is non-empty and the title
column has a different length — `extract_data_to_dataframe` raises a
length-mismatch `ValueError` instead of building a table with
NULL-padded (ragged) columns. -/
theorem c4_mismatch_raises (soup : Soup)
    (h1 : extract_item_post_times soup ≠ [])
    (h2 : (extract_item_titles soup).length ≠ (extract_item_post_times soup).length) :
    extract_data_to_dataframe (data_extraction_functions soup)
      = Except.error PyErr.valueError := by
  cases hpt : extract_item_post_times soup with
  | nil => exact absurd hpt h1
  | cons a l =>
    rw [hpt] at h2
    unfold extract_data_to_dataframe data_extraction_functions
    rw [hpt]
    simp only [edtdGo, DataFrame.setItem, DataFrame.mkEmpty, List.length_cons]
    rw [List.length_cons] at h2
    simp [h2]

/-- Second mismatched page: one posted time, two titles. -/
def soupC4w : Soup :=
  ⟨fun sel =>
    if sel == ".ListingAge-module__dateAgo___xmM8y" then [⟨"5 days\u00A0ago", []⟩]
    else if sel == ".ListingMetadata-module__title___Rsj55" then
      [⟨"Leather Jacket", []⟩, ⟨"Denim Shirt", []⟩]
    else []⟩

/-- C4 witness: the amended theorem applied to the second mismatched
page. -/
theorem c4_witness :
    extract_data_to_dataframe (data_extraction_functions soupC4w)
      = Except.error PyErr.valueError :=
  c4_mismatch_raises soupC4w (by decide) (by decide)

theorem accept_cookies_ok (env : Env) : accept_cookies env = Except.ok () := by
  cases hc : env.cookieButtonAppears <;> simp [accept_cookies, hc]

theorem dismiss_login_popup_ok (env : Env) : dismiss_login_popup env = Except.ok () := by
  cases hp : env.popupAppears <;> cases ho : env.overlayPersists <;>
    simp [dismiss_login_popup, hp, ho]

theorem popupRetryGo_three (env : Env) : popupRetryGo env 3 = (1, Except.ok ()) := by
  simp [popupRetryGo, dismiss_login_popup_ok]

/-- C9: `dismiss_login_popup` catches every `TimeoutException` raised
inside it (whether the modal never appears or the overlay never
vanishes) and returns normally, so it never propagates
`TimeoutException`; consequently the 3-attempt retry loop around it
breaks on its first iteration — the loop body runs exactly once and its
except branch is unreachable — for every driver state. -/
theorem c9_dismiss_never_times_out (env : Env) :
    dismiss_login_popup env ≠ Except.error PyErr.timeout
    ∧ dismiss_login_popup env = Except.ok ()
    ∧ popupRetryGo env 3 = (1, Except.ok ()) := by
  refine ⟨?_, dismiss_login_popup_ok env, popupRetryGo_three env⟩
  rw [dismiss_login_popup_ok env]
  exact fun hcontra => Except.noConfusion hcontra

theorem get_to_search_bar_quits (env : Env) :
    get_to_search_bar_to_search env
      = ((if env.searchBarErr.isSome then 1 else 0), Except.ok ()) := by
  unfold get_to_search_bar_to_search getToSearchBarBody
  rw [accept_cookies_ok]
  cases he : env.searchBarErr with
  | none => simp [popupRetryGo_three]
  | some e => cases e <;> simp [SearchBarFailure.toPyErr]

theorem main_run_quits (env : Env) :
    (main_run env).1 = (get_to_search_bar_to_search env).1 + 1 := by
  unfold main_run
  rcases hnav : get_to_search_bar_to_search env with ⟨q, r⟩
  clear hnav
  cases r with
  | error e => rfl
  | ok u =>
    dsimp only
    repeat' split
    all_goals rfl

/-- C2 (amended): session teardown is guaranteed — `driver.quit()` in
the `finally` block runs on every path, so teardown happens at least
once whether the run succeeds or fails — but it is not invoked exactly
once on every run: a search-bar failure (element-not-found,
stale-element or timeout) makes `get_to_search_bar_to_search` quit the
session in its handler and the `finally` block quit it again, for a
total of two invocations; only runs whose search-bar interaction
succeeds tear down exactly once. -/
theorem c2_teardown_count (env : Env) :
    1 ≤ (main_run env).1
    ∧ (main_run env).1 = if env.searchBarErr.isSome then 2 else 1 := by
  have h := main_run_quits env
  rw [get_to_search_bar_quits env] at h
  constructor
  · rw [h]
    cases env.searchBarErr <;> simp
  · rw [h]
    cases env.searchBarErr <;> simp

theorem lastIdxOfAux_eq_none (c : Char) :
    ∀ (cs : List Char) (i : Nat), (∀ x ∈ cs, (x == c) = false) → lastIdxOfAux c cs i = none := by
  intro cs
  induction cs with
  | nil => intro i _; rfl
  | cons x xs ih =>
    intro i h
    simp only [lastIdxOfAux]
    rw [ih (i + 1) (fun y hy => h y (by simp [hy]))]
    rw [h x (by simp)]
    rfl

theorem splitext_dotFree (p : String) (h : dotFree p = true) : splitext p = (p, "") := by
  have h' : ∀ x ∈ p.data, (x == '.') = false := by
    intro x hx
    have hb := List.all_eq_true.mp h x hx
    simpa [bne] using hb
  unfold splitext lastIdxOf
  rw [lastIdxOfAux_eq_none '.' p.data 0 h']

theorem digit_toNat_lt (c : Char) (h : c.isDigit = true) : c.toNat - 48 < 10 := by
  simp [Char.isDigit] at h
  obtain ⟨h1, h2⟩ := h
  have hle : c.toNat ≤ 57 := h2
  omega

theorem toString_digit_succ_dotFree : ∀ d : Nat, d < 10 → dotFree (toString (d + 1)) = true := by
  decide

theorem dotFree_append (a b : String) : dotFree (a ++ b) = (dotFree a && dotFree b) := by
  simp [dotFree, String.data_append, List.all_append]

theorem dotFree_dropLast (s : String) (h : dotFree s = true) :
    dotFree (String.mk s.data.dropLast) = true := by
  unfold dotFree at h ⊢
  rw [List.all_eq_true] at h ⊢
  intro x hx
  exact h x ((List.dropLast_sublist s.data).subset hx)

theorem reMatchTrailingNum_some (base pre : String) (d : Nat)
    (h : reMatchTrailingNum base = some (pre, d)) :
    pre = String.mk base.data.dropLast ∧ d < 10 := by
  unfold reMatchTrailingNum at h
  cases hlast : base.data.getLast? with
  | none => rw [hlast] at h; exact absurd h (by simp)
  | some c =>
    rw [hlast] at h
    dsimp only at h
    by_cases hdig : c.isDigit = true
    · rw [if_pos hdig] at h
      simp only [Option.some.injEq, Prod.mk.injEq] at h
      obtain ⟨hp, hd⟩ := h
      refine ⟨hp.symm, ?_⟩
      rw [← hd]
      exact digit_toNat_lt c hdig
    · rw [if_neg hdig] at h
      exact absurd h (by simp)

/-- The candidate name built by one pass of `generate_unique_filename`
over a dot-free base contains no dot either. -/
theorem guf_candidate_dotFree (base : String) (h1 : dotFree base = true) :
    dotFree (match reMatchTrailingNum (splitext base).1 with
      | some pc => pc.1 ++ "_" ++ toString (pc.2 + 1) ++ (splitext base).2
      | none => (splitext base).1 ++ "_1" ++ (splitext base).2) = true := by
  rw [splitext_dotFree base h1]
  have hu : dotFree "_1" = true := by decide
  have hu2 : dotFree "_" = true := by decide
  have he : dotFree "" = true := by decide
  cases hre : reMatchTrailingNum base with
  | none =>
    dsimp only
    rw [dotFree_append, dotFree_append, h1, hu, he]
    rfl
  | some pc =>
    dsimp only
    obtain ⟨hp, hd⟩ := reMatchTrailingNum_some base pc.1 pc.2 (by rw [hre])
    rw [dotFree_append, dotFree_append, dotFree_append, hp,
      dotFree_dropLast base h1, hu2, toString_digit_succ_dotFree pc.2 hd, he]
    rfl

theorem guf_one_step (fs : List String) (fuel : Nat) (filename cand : String)
    (hc : (match reMatchTrailingNum (splitext filename).1 with
      | some pc => pc.1 ++ "_" ++ toString (pc.2 + 1) ++ (splitext filename).2
      | none => (splitext filename).1 ++ "_1" ++ (splitext filename).2) = cand)
    (hnot : pathExists fs cand = false) :
    generate_unique_filename fs (fuel + 1) filename = some cand := by
  unfold generate_unique_filename
  dsimp only
  rw [hc, hnot]
  rfl

theorem dot_mem_of_ext_suffix (x : String)
    (h : ".json".data.isSuffixOf x.data = true ∨ ".csv".data.isSuffixOf x.data = true
      ∨ ".yaml".data.isSuffixOf x.data = true) :
    '.' ∈ x.data := by
  have hgen : ∀ e : String, e.data.isSuffixOf x.data = true → '.' ∈ e.data → '.' ∈ x.data := by
    intro e he hd
    exact (List.IsSuffix.subset (List.isSuffixOf_iff_suffix.mp he)) hd
  rcases h with h | h | h
  · exact hgen ".json" h (by decide)
  · exact hgen ".csv" h (by decide)
  · exact hgen ".yaml" h (by decide)

/-- C10: the collision check and the written file look at different
paths.  For a dot-free base name (the query with spaces replaced, or a
bare output name) and a filesystem whose files all carry one of the
three format extensions, `generate_unique_filename` settles on the very
first candidate: the one existence check the loop performs probes a
dot-free path, which no extension-carrying file can equal, so such
files never trigger further suffixing — the result is the same as on an
empty filesystem — while `save_as_json` then writes to the chosen name
with ".json" appended, a path that does contain a dot. -/
theorem c10_collision_check_extensionless (fs : List String) (base : String) (fuel : Nat)
    (h1 : dotFree base = true)
    (h2 : ∀ x ∈ fs, ".json".data.isSuffixOf x.data = true ∨ ".csv".data.isSuffixOf x.data = true
      ∨ ".yaml".data.isSuffixOf x.data = true) :
    ∃ r, generate_unique_filename fs (fuel + 1) base = some r
      ∧ generate_unique_filename [] 1 base = some r
      ∧ dotFree r = true
      ∧ dotFree (save_as_json_path r) = false
      ∧ pathExists fs r = false := by
  refine ⟨(match reMatchTrailingNum (splitext base).1 with
    | some pc => pc.1 ++ "_" ++ toString (pc.2 + 1) ++ (splitext base).2
    | none => (splitext base).1 ++ "_1" ++ (splitext base).2), ?_, ?_, ?_, ?_, ?_⟩
  case refine_3 => exact guf_candidate_dotFree base h1
  case refine_5 =>
    by_contra hcontra
    have hmem : (match reMatchTrailingNum (splitext base).1 with
        | some pc => pc.1 ++ "_" ++ toString (pc.2 + 1) ++ (splitext base).2
        | none => (splitext base).1 ++ "_1" ++ (splitext base).2) ∈ fs := by
      rw [Bool.not_eq_false] at hcontra
      exact List.elem_iff.mp hcontra
    have hdot := dot_mem_of_ext_suffix _ (h2 _ hmem)
    have hdf := guf_candidate_dotFree base h1
    unfold dotFree at hdf
    rw [List.all_eq_true] at hdf
    have := hdf '.' hdot
    simp at this
  case refine_1 =>
    apply guf_one_step fs fuel base _ rfl
    by_contra hcontra
    have hmem : (match reMatchTrailingNum (splitext base).1 with
        | some pc => pc.1 ++ "_" ++ toString (pc.2 + 1) ++ (splitext base).2
        | none => (splitext base).1 ++ "_1" ++ (splitext base).2) ∈ fs := by
      rw [Bool.not_eq_false] at hcontra
      exact List.elem_iff.mp hcontra
    have hdot := dot_mem_of_ext_suffix _ (h2 _ hmem)
    have hdf := guf_candidate_dotFree base h1
    unfold dotFree at hdf
    rw [List.all_eq_true] at hdf
    have := hdf '.' hdot
    simp at this
  case refine_2 => exact guf_one_step [] 0 base _ rfl rfl
  case refine_4 =>
    rw [save_as_json_path, dotFree_append, guf_candidate_dotFree base h1]
    decide

/-- C10 witness: with base name "shoes" and an existing output file
"shoes_1.json" (which carries the extension), the collision loop still
settles on "shoes_1" after a single existence check on that dot-free
path. -/
theorem c10_witness :
    ∃ r, generate_unique_filename ["shoes_1.json"] 1 "shoes" = some r
      ∧ generate_unique_filename [] 1 "shoes" = some r
      ∧ dotFree r = true
      ∧ dotFree (save_as_json_path r) = false
      ∧ pathExists ["shoes_1.json"] r = false :=
  c10_collision_check_extensionless ["shoes_1.json"] "shoes" 0 (by decide) (by decide)

/-- C2 counterexample: on the run `envC2`, whose search-bar wait times
out, `driver.quit()` is invoked twice — once by the handler inside
`get_to_search_bar_to_search` and once by the `finally` block — so
teardown is not invoked exactly once on that run. -/
theorem c2_counterexample :
    (main_run envC2).1 = 2 ∧ (main_run envC2).1 ≠ 1 := by
  refine ⟨rfl, by decide⟩

end CreateTask
